import Mathlib

/-!
Shallow embedding of the Simple-MCP repository (src/mcp_server.py and
src/client.py) in Lean 4, together with theorems settling the claims
of its natural-language specification.

Modelling conventions:
* Values that flow through `json.loads` / tool-argument dictionaries are
  modelled by the inductive `Json` (numbers as `Int`; JSON fractional
  numbers and exotic floats are outside the model, which no claim needs).
* Python exceptions are modelled by `Except PyErr`; the constructor
  records the exception class (diagnostic message texts are not modelled,
  no claim inspects them).
* External boundaries (the `json.loads` parser, the LLM backend, the MCP
  transport) are taken as function parameters of the loop model; the
  repository code that consumes their outputs is translated literally.
-/

/-- A decoded Python value as produced by `json.loads`. -/
inductive Json where
  | null
  | bool (b : Bool)
  | num (n : Int)
  | str (s : String)
  | arr (elems : List Json)
  | obj (entries : List (String × Json))

/-- Python `x is None` on a decoded JSON value. -/
def isNull : Json → Bool
  | Json.null => true
  | _ => false

/-- Whether the first list is a prefix of the second. -/
def charsStartWith : List Char → List Char → Bool
  | [], _ => true
  | _ :: _, [] => false
  | a :: as, b :: bs => a == b && charsStartWith as bs

/-- Whether the first list occurs as a contiguous segment of the second. -/
def charsContain (needle : List Char) : List Char → Bool
  | [] => charsStartWith needle []
  | c :: rest => charsStartWith needle (c :: rest) || charsContain needle rest

/-- Python substring test `needle in hay`. -/
def pyIn (needle hay : String) : Bool :=
  charsContain needle.toList hay.toList

/-- Exception classes raised by the modelled Python operations. -/
inductive PyErr where
  | typeError
  | valueError
  | keyError
deriving DecidableEq

def pyErrStr : PyErr → String
  | PyErr.typeError => "TypeError"
  | PyErr.valueError => "ValueError"
  | PyErr.keyError => "KeyError"

/-- Dictionary lookup on a decoded JSON object. -/
def pyDictFind (kvs : List (String × Json)) (key : String) : Option Json :=
  (kvs.find? (fun p => p.1 == key)).map (fun p => p.2)

/-- Python `key in x` for a decoded JSON value: key membership on dicts,
element membership on lists, substring test on strings, `TypeError`
otherwise. -/
def pyMem (j : Json) (key : String) : Except PyErr Bool :=
  match j with
  | Json.obj kvs => Except.ok (pyDictFind kvs key).isSome
  | Json.arr xs =>
      Except.ok (xs.any (fun x =>
        match x with
        | Json.str s => s == key
        | _ => false))
  | Json.str s => Except.ok (pyIn key s)
  | _ => Except.error PyErr.typeError

/-- Python `x[key]` for a string key: dict lookup, `TypeError` on any
non-dict value. -/
def pyGetItem (j : Json) (key : String) : Except PyErr Json :=
  match j with
  | Json.obj kvs =>
      match pyDictFind kvs key with
      | some v => Except.ok v
      | none => Except.error PyErr.keyError
  | _ => Except.error PyErr.typeError

/-- Value of a nonempty digit string. -/
def digitsVal (cs : List Char) : Nat :=
  cs.foldl (fun acc c => acc * 10 + (c.toNat - 48)) 0

/-- Shape test for the body of a Python integer literal: digits with
underscores allowed only between digits. -/
def isPyIntBody (cs : List Char) : Bool :=
  decide (cs ≠ []) &&
  cs.all (fun c => c.isDigit || c == '_') &&
  decide (cs.head? ≠ some '_') &&
  decide (cs.getLast? ≠ some '_') &&
  !(charsContain ['_', '_'] cs)

/-- Python `s.strip()` on the character list of a string. -/
def pyStripChars (cs : List Char) : List Char :=
  ((cs.dropWhile Char.isWhitespace).reverse.dropWhile Char.isWhitespace).reverse

/-- Python `int(s)` on a string: strip whitespace, optional sign, digits. -/
def pyIntOfString (s : String) : Option Int :=
  let cs := pyStripChars s.toList
  match cs with
  | '-' :: rest =>
      if isPyIntBody rest then some (-(digitsVal (rest.filter (fun c => c != '_')) : Int)) else none
  | '+' :: rest =>
      if isPyIntBody rest then some ((digitsVal (rest.filter (fun c => c != '_')) : Int)) else none
  | _ =>
      if isPyIntBody cs then some ((digitsVal (cs.filter (fun c => c != '_')) : Int)) else none

/-- Python `int(x)` on a decoded JSON value: identity on ints, 0/1 on
bools, string parsing on strings, `TypeError` on everything else. -/
def pyInt : Json → Except PyErr Int
  | Json.num n => Except.ok n
  | Json.bool b => Except.ok (if b then 1 else 0)
  | Json.str s =>
      match pyIntOfString s with
      | some n => Except.ok n
      | none => Except.error PyErr.valueError
  | _ => Except.error PyErr.typeError

mutual

/-- Python `repr(x)` of a decoded JSON value (string escape sequences are
not reproduced; no claim depends on them). -/
def pyRepr : Json → String
  | Json.null => "None"
  | Json.bool true => "True"
  | Json.bool false => "False"
  | Json.num n => toString n
  | Json.str s => "\x27" ++ s ++ "\x27"
  | Json.arr xs => "[" ++ pyReprSeq xs ++ "]"
  | Json.obj kvs => "\x7b" ++ pyReprEntries kvs ++ "\x7d"

def pyReprSeq : List Json → String
  | [] => ""
  | [x] => pyRepr x
  | x :: y :: rest => pyRepr x ++ ", " ++ pyReprSeq (y :: rest)

def pyReprEntries : List (String × Json) → String
  | [] => ""
  | [(k, v)] => "\x27" ++ k ++ "\x27: " ++ pyRepr v
  | (k, v) :: e :: rest => "\x27" ++ k ++ "\x27: " ++ pyRepr v ++ ", " ++ pyReprEntries (e :: rest)

end

/-- Python `str(x)` of a decoded JSON value. -/
def pyStr : Json → String
  | Json.str s => s
  | j => pyRepr j

/-- Python string truthiness of an optional-string parameter
(`None` and the empty string are falsy). -/
def optStrTruthy : Option String → Bool
  | none => false
  | some s => s != ""

/-- Python `a == s` between a decoded JSON value and a string literal. -/
def jsonEqStr (j : Json) (s : String) : Bool :=
  match j with
  | Json.str t => t == s
  | _ => false

/-!
### mcp_server.py — entity store, relationship graph, query tools
-/

/-- A user record of the entity store (src/mcp_server.py, `USERS`). -/
structure User where
  id : Nat
  name : String
  email : String
  age : Int
  gender : String
deriving DecidableEq

def USERS : List User :=
  [⟨1, "Alice", "alice@example.com", 39, "female"⟩,
   ⟨2, "Bob", "bob@example.com", 40, "male"⟩,
   ⟨3, "Charlie", "charlie@example.com", 19, "male"⟩,
   ⟨4, "David", "david.wilson@example.com", 41, "male"⟩,
   ⟨5, "Emma", "emma.johnson@example.com", 37, "female"⟩,
   ⟨6, "Frank", "frank.smith@example.com", 20, "male"⟩,
   ⟨7, "Grace", "grace.lee@example.com", 17, "female"⟩,
   ⟨8, "Henry", "henry.brown@example.com", 35, "male"⟩,
   ⟨9, "Ivy", "ivy.martinez@example.com", 29, "female"⟩,
   ⟨10, "Jack", "jack.taylor@example.com", 18, "male"⟩,
   ⟨11, "Karen", "karen.anderson@example.com", 28, "female"⟩,
   ⟨12, "Leo", "leo.thompson@example.com", 22, "male"⟩,
   ⟨13, "Mia", "mia.garcia@example.com", 18, "female"⟩]

def user_ids : List Nat := USERS.map (fun u => u.id)

/-- Python `USERS.get(user_id)` (the dict is keyed by the id field). -/
def findUser (uid : Nat) : Option User :=
  USERS.find? (fun u => u.id == uid)

/-- An edge of the relationship list (src/mcp_server.py, `RELATIONSHIPS`). -/
structure Relationship where
  user1 : Nat
  user2 : Nat
  relation : String
  user1_name : String
  user2_name : String
deriving DecidableEq

def RELATIONSHIPS : List Relationship :=
  [⟨1, 2, "夫妻", "Alice", "Bob"⟩,
   ⟨1, 3, "母子", "Alice", "Charlie"⟩,
   ⟨2, 3, "父子", "Bob", "Charlie"⟩,
   ⟨1, 13, "母女", "Alice", "Mia"⟩,
   ⟨2, 13, "父女", "Bob", "Mia"⟩,
   ⟨3, 13, "兄妹", "Charlie", "Mia"⟩,
   ⟨4, 5, "夫妻", "David", "Emma"⟩,
   ⟨4, 6, "父子", "David", "Frank"⟩,
   ⟨5, 6, "母子", "Emma", "Frank"⟩,
   ⟨4, 7, "父女", "David", "Grace"⟩,
   ⟨5, 7, "母女", "Emma", "Grace"⟩,
   ⟨6, 7, "兄妹", "Frank", "Grace"⟩,
   ⟨8, 9, "夫妻", "Henry", "Ivy"⟩,
   ⟨8, 10, "父子", "Henry", "Jack"⟩,
   ⟨9, 10, "母子", "Ivy", "Jack"⟩,
   ⟨11, 12, "姐弟", "Karen", "Leo"⟩,
   ⟨3, 6, "表兄弟", "Charlie", "Frank"⟩,
   ⟨13, 7, "朋友", "Mia", "Grace"⟩,
   ⟨10, 11, "朋友", "Jack", "Karen"⟩]

/-- The hardcoded reverse-relation table of `get_reverse_relation`. -/
def reverse_map : List (String × String) :=
  [("夫妻", "夫妻"),
   ("父子", "子父"),
   ("母子", "子母"),
   ("父女", "女父"),
   ("母女", "女母"),
   ("兄妹", "妹兄"),
   ("姐弟", "弟姐"),
   ("表兄弟", "表兄弟"),
   ("表姐妹", "表姐妹"),
   ("朋友", "朋友")]

/-- `get_reverse_relation`: table lookup with the label itself as default. -/
def get_reverse_relation (relation : String) : String :=
  match reverse_map.find? (fun p => p.1 == relation) with
  | some p => p.2
  | none => relation

/-- One entry of the adjacency index built by `build_adjacency_list`. -/
structure AdjEntry where
  related_user_id : Nat
  related_user_name : String
  relation : String
deriving DecidableEq

/-- The adjacency index `USER_ADJACENCY_LIST` viewed per key: the dict maps
every store id to the entries appended for it while scanning
`RELATIONSHIPS` in order (ids outside the store have no key; lookups on
them use the `.get(user_id, [])` default). -/
def USER_ADJACENCY_LIST (uid : Nat) : List AdjEntry :=
  if user_ids.contains uid then
    RELATIONSHIPS.foldl
      (fun acc rel =>
        let acc :=
          if rel.user1 == uid then acc ++ [⟨rel.user2, rel.user2_name, rel.relation⟩] else acc
        if rel.user2 == uid then
          acc ++ [⟨rel.user1, rel.user1_name, get_reverse_relation rel.relation⟩]
        else acc)
      []
  else []

/-- Result shape of `get_relationship_between_users` (user payload fields
of the returned dicts are determined by the constructor arguments). -/
inductive RelBetween where
  | errorUser (uid : Nat)
  | hasRel (relation : String)
  | noRel
deriving DecidableEq

def get_relationship_between_users (user1_id user2_id : Nat) : RelBetween :=
  match findUser user1_id with
  | none => RelBetween.errorUser user1_id
  | some _ =>
    match findUser user2_id with
    | none => RelBetween.errorUser user2_id
    | some _ =>
      match (USER_ADJACENCY_LIST user1_id).find? (fun r => r.related_user_id == user2_id) with
      | some r => RelBetween.hasRel r.relation
      | none => RelBetween.noRel

/-- Result shape of `get_spouse`. -/
inductive SpouseResult where
  | errorUser (uid : Nat)
  | hasSpouse (spouse : Option User)
  | noSpouse
deriving DecidableEq

def get_spouse (user_id : Nat) : SpouseResult :=
  match findUser user_id with
  | none => SpouseResult.errorUser user_id
  | some _ =>
    match (USER_ADJACENCY_LIST user_id).find? (fun r => r.relation == "夫妻") with
    | some r => SpouseResult.hasSpouse (findUser r.related_user_id)
    | none => SpouseResult.noSpouse

def child_relations : List String := ["父子", "父女", "母子", "母女"]

def parent_relations : List String := ["子父", "子母", "女父", "女母"]

/-- Result shape of `get_children` / `get_parents`. -/
inductive RelativesResult where
  | errorUser (uid : Nat)
  | ok (relatives : List (String × User))
deriving DecidableEq

def get_children (user_id : Nat) : RelativesResult :=
  match findUser user_id with
  | none => RelativesResult.errorUser user_id
  | some _ =>
    RelativesResult.ok
      ((USER_ADJACENCY_LIST user_id).filterMap
        (fun r =>
          if child_relations.contains r.relation then
            (findUser r.related_user_id).map (fun u => (r.relation, u))
          else none))

def get_parents (user_id : Nat) : RelativesResult :=
  match findUser user_id with
  | none => RelativesResult.errorUser user_id
  | some _ =>
    RelativesResult.ok
      ((USER_ADJACENCY_LIST user_id).filterMap
        (fun r =>
          if parent_relations.contains r.relation then
            (findUser r.related_user_id).map (fun u => (r.relation, u))
          else none))

/-- The ids listed in the `children` field of `get_children`. -/
def children_ids (uid : Nat) : List Nat :=
  match get_children uid with
  | RelativesResult.ok l => l.map (fun p => p.2.id)
  | _ => []

/-- The ids listed in the `parents` field of `get_parents`. -/
def parent_ids (uid : Nat) : List Nat :=
  match get_parents uid with
  | RelativesResult.ok l => l.map (fun p => p.2.id)
  | _ => []

/-- Parameters of the `query_users` tool. -/
structure QueryParams where
  name : Option String
  min_age : Option Int
  max_age : Option Int
  age_greater_than : Option Int
  age_less_than : Option Int
  email_contains : Option String
deriving DecidableEq

/-- The per-user match flag of `query_users`: starts true, each supplied
predicate can only lower it (sequence of `if ...: match = False`). -/
def userMatches (p : QueryParams) (u : User) : Bool :=
  let m0 := true
  let m1 :=
    if optStrTruthy p.name && !(pyIn (p.name.getD "").toLower u.name.toLower) then false else m0
  let m2 := if p.min_age.isSome && decide (u.age < p.min_age.getD 0) then false else m1
  let m3 := if p.max_age.isSome && decide (p.max_age.getD 0 < u.age) then false else m2
  let m4 :=
    if p.age_greater_than.isSome && decide (u.age ≤ p.age_greater_than.getD 0) then false else m3
  let m5 :=
    if p.age_less_than.isSome && decide (p.age_less_than.getD 0 ≤ u.age) then false else m4
  let m6 :=
    if optStrTruthy p.email_contains &&
        !(pyIn (p.email_contains.getD "").toLower u.email.toLower) then
      false
    else m5
  m6

/-- Projection appended to `results` for each matching user. -/
structure UserResult where
  id : Nat
  name : String
  email : String
  age : Int
deriving DecidableEq

structure QueryUsersResult where
  status : String
  count : Nat
  users : List UserResult
deriving DecidableEq

/-- `query_users` over an entity store (the source reads the module-level
`USERS`; the store is explicit here so the specification scenarios over
other stores are statable). -/
def query_users (store : List User) (p : QueryParams) : QueryUsersResult :=
  let results := (store.filter (userMatches p)).map (fun u => UserResult.mk u.id u.name u.email u.age)
  ⟨"success", results.length, results⟩

/-!
### client.py — argument coercion (`NaturalLanguageQuery._convert_arguments`)
-/

def query_users_keys : List String :=
  ["name", "min_age", "max_age", "age_greater_than", "age_less_than", "email_contains"]

def int_age_keys : List String :=
  ["min_age", "max_age", "age_greater_than", "age_less_than"]

def user_id_tools : List String :=
  ["get_user_by_id", "get_user_relationships", "get_spouse",
   "get_relatives_by_relation", "get_children", "get_parents"]

/-- One iteration of the `query_users` key loop of `_convert_arguments`:
`if key in arguments and arguments[key] is not None`, integer keys go
through `int(...)` with the field dropped on `ValueError`/`TypeError`,
string keys through `str(...)`. -/
def convert_query_users_step (arguments : Json) (conv : List (String × Json)) (key : String) :
    Except PyErr (List (String × Json)) :=
  match pyMem arguments key with
  | Except.error e => Except.error e
  | Except.ok false => Except.ok conv
  | Except.ok true =>
    match pyGetItem arguments key with
    | Except.error e => Except.error e
    | Except.ok v =>
      if isNull v then Except.ok conv
      else if int_age_keys.contains key then
        match pyInt v with
        | Except.ok n => Except.ok (conv ++ [(key, Json.num n)])
        | Except.error _ => Except.ok conv
      else Except.ok (conv ++ [(key, Json.str (pyStr v))])

def convertQueryUsersAux (arguments : Json) :
    List String → List (String × Json) → Except PyErr (List (String × Json))
  | [], conv => Except.ok conv
  | key :: rest, conv =>
    match convert_query_users_step arguments conv key with
    | Except.error e => Except.error e
    | Except.ok conv2 => convertQueryUsersAux arguments rest conv2

/-- The `query_users` branch of `_convert_arguments`. -/
def convertQueryUsers (arguments : Json) : Except PyErr (List (String × Json)) :=
  convertQueryUsersAux arguments query_users_keys []

/-- The id-coercion pattern of the `user_id`-style branches:
`try: converted[key] = int(arguments[key]) except (ValueError, TypeError):
converted[key] = arguments[key]` guarded by `if key in arguments`. -/
def convert_id_step (arguments : Json) (conv : List (String × Json)) (key : String) :
    Except PyErr (List (String × Json)) :=
  match pyMem arguments key with
  | Except.error e => Except.error e
  | Except.ok false => Except.ok conv
  | Except.ok true =>
    match
      (match pyGetItem arguments key with
       | Except.error e => Except.error e
       | Except.ok v => pyInt v) with
    | Except.ok n => Except.ok (conv ++ [(key, Json.num n)])
    | Except.error _ =>
      match pyGetItem arguments key with
      | Except.error e => Except.error e
      | Except.ok v => Except.ok (conv ++ [(key, v)])

/-- The branch of `_convert_arguments` shared by the six single-user tools:
`user_id` coercion followed by the optional `relation_type` string field. -/
def convertUserIdTool (arguments : Json) : Except PyErr (List (String × Json)) :=
  match convert_id_step arguments [] "user_id" with
  | Except.error e => Except.error e
  | Except.ok conv =>
    match pyMem arguments "relation_type" with
    | Except.error e => Except.error e
    | Except.ok false => Except.ok conv
    | Except.ok true =>
      match pyGetItem arguments "relation_type" with
      | Except.error e => Except.error e
      | Except.ok v =>
        if isNull v then Except.ok conv
        else Except.ok (conv ++ [("relation_type", Json.str (pyStr v))])

/-- The `get_relationship_between_users` branch of `_convert_arguments`. -/
def convertRelBetween (arguments : Json) : Except PyErr (List (String × Json)) :=
  match convert_id_step arguments [] "user1_id" with
  | Except.error e => Except.error e
  | Except.ok conv => convert_id_step arguments conv "user2_id"

/-- `_convert_arguments`: tool-specific coercion, then
`return converted if converted else arguments`. -/
def convert_arguments (tool_name : Json) (arguments : Json) : Except PyErr Json :=
  match
    (if jsonEqStr tool_name "query_users" then convertQueryUsers arguments
     else if user_id_tools.any (fun s => jsonEqStr tool_name s) then convertUserIdTool arguments
     else if jsonEqStr tool_name "get_relationship_between_users" then convertRelBetween arguments
     else Except.ok []) with
  | Except.error e => Except.error e
  | Except.ok conv => if conv.isEmpty then Except.ok arguments else Except.ok (Json.obj conv)

/-!
### client.py — decision dispatch and the orchestration loop
(`NaturalLanguageQuery.query`)
-/

/-- Classification of one LLM response inside `query`: the parsed value
(`none` when `json.loads` raised `JSONDecodeError`) is probed with
`"tool" in tool_decision and "arguments" in tool_decision` and the two
extractions `tool_decision["tool"]`, `tool_decision["arguments"]`; any
exception other than `JSONDecodeError` escapes to the outer handler. -/
inductive StepKind where
  | toolCall (tool : Json) (arguments : Json)
  | finalAnswer
  | pyError (e : PyErr)

def decisionStep (parsed : Option Json) : StepKind :=
  match parsed with
  | none => StepKind.finalAnswer
  | some j =>
    match pyMem j "tool" with
    | Except.error e => StepKind.pyError e
    | Except.ok false => StepKind.finalAnswer
    | Except.ok true =>
      match pyMem j "arguments" with
      | Except.error e => StepKind.pyError e
      | Except.ok false => StepKind.finalAnswer
      | Except.ok true =>
        match pyGetItem j "tool" with
        | Except.error e => StepKind.pyError e
        | Except.ok t =>
          match pyGetItem j "arguments" with
          | Except.error e => StepKind.pyError e
          | Except.ok a => StepKind.toolCall t a

/-- A `conversation_history` entry. -/
structure ToolCallRecord where
  tool : Json
  arguments : Json
  result : Json

structure QueryRunResult where
  answer : String
  decisionCalls : Nat
  history : List ToolCallRecord

def max_iterations : Nat := 10

def fallbackAnswer : String := "抱歉，无法处理您的问题。"

def degradedMessage (n : Nat) : String :=
  "抱歉，经过 " ++ toString n ++
    " 次工具调用后，问题仍然过于复杂。已收集的信息可能不足以完整回答您的问题，请尝试简化问题或分步询问。"

def errorAnswer (e : PyErr) : String := "处理查询时出错: " ++ pyErrStr e

/-- The `while iteration < max_iterations` loop of `query`, with the LLM
backend (`dec`), the tool boundary (`execTool`, total by the
`call_mcp_tool` contract) and `json.loads` (`loads`) as parameters.
`history` is `conversation_history`; the second component counts LLM
calls. -/
def queryAux (dec : List ToolCallRecord → String) (execTool : Json → Json → Json)
    (loads : String → Option Json) :
    Nat → List ToolCallRecord → Nat → QueryRunResult
  | 0, history, calls =>
    { answer := if history.isEmpty then fallbackAnswer else degradedMessage history.length,
      decisionCalls := calls, history := history }
  | fuel + 1, history, calls =>
    let raw := dec history
    match decisionStep (loads raw) with
    | StepKind.pyError e =>
      { answer := errorAnswer e, decisionCalls := calls + 1, history := history }
    | StepKind.finalAnswer =>
      { answer := raw, decisionCalls := calls + 1, history := history }
    | StepKind.toolCall t a =>
      match convert_arguments t a with
      | Except.error e =>
        { answer := errorAnswer e, decisionCalls := calls + 1, history := history }
      | Except.ok args =>
        queryAux dec execTool loads fuel (history ++ [⟨t, args, execTool t args⟩]) (calls + 1)

/-- `NaturalLanguageQuery.query` for one question (the question string is
folded into `dec`). -/
def queryRun (dec : List ToolCallRecord → String) (execTool : Json → Json → Json)
    (loads : String → Option Json) : QueryRunResult :=
  queryAux dec execTool loads max_iterations [] 0

/-!
### client.py — tool invocation client (`call_mcp_tool`)
-/

/-- A content block of a `CallToolResult`. -/
inductive ContentBlock where
  | textContent (text : String)
  | otherContent
deriving DecidableEq

/-- What the transport produced: either an exception somewhere in session
setup / initialization / the call itself, or a response with its content
blocks (`reprStr` stands for `str(result)`). -/
inductive CallOutcome where
  | raised (msg : String)
  | returned (content : List ContentBlock) (reprStr : String)

/-- The `for content_item in result.content` scan for the first
`TextContent`. -/
def firstTextContent : List ContentBlock → Option String
  | [] => none
  | ContentBlock.textContent s :: _ => some s
  | ContentBlock.otherContent :: rest => firstTextContent rest

/-- `call_mcp_tool` after the transport boundary: decode the first text
block as JSON, fall back to wrapping, catch every exception. -/
def call_mcp_tool (loads : String → Option Json) : CallOutcome → Json
  | CallOutcome.raised msg => Json.obj [("error", Json.str msg)]
  | CallOutcome.returned content reprStr =>
    if content.isEmpty then Json.obj [("result", Json.str reprStr)]
    else
      match firstTextContent content with
      | some s =>
        match loads s with
        | some parsed => parsed
        | none => Json.obj [("result", Json.str s)]
      | none => Json.obj [("result", Json.str reprStr)]

/-!
### Theorems
-/

/-- Whether some declared edge connects `a` and `b` in either direction. -/
def edgeConnects (a b : Nat) : Bool :=
  RELATIONSHIPS.any
    (fun r => (r.user1 == a && r.user2 == b) || (r.user1 == b && r.user2 == a))

/-- C1 (amended): for every declared edge `{a,b,label}` the adjacency index
has the entry `{b,label}` at `a` and `{a, inverse(label)}` at `b`, and
labels outside the reverse-relation table are self-inverse.  (The original
claim further required `inverse(inverse(label)) = label` for every label
occurring in the structure; that part is refuted by
`c1_involution_counterexample`.) -/
theorem c1_adjacency_amended :
    (∀ rel ∈ RELATIONSHIPS,
        (AdjEntry.mk rel.user2 rel.user2_name rel.relation) ∈ USER_ADJACENCY_LIST rel.user1 ∧
        (AdjEntry.mk rel.user1 rel.user1_name (get_reverse_relation rel.relation)) ∈
          USER_ADJACENCY_LIST rel.user2) ∧
    (∀ l, reverse_map.find? (fun p => p.1 == l) = none → get_reverse_relation l = l) := by
  constructor
  · decide
  · intro l h
    simp [get_reverse_relation, h]

/-- C1 (counterexample): the label `父子` occurs in the declared structure,
but `inverse(inverse("父子")) = "子父" ≠ "父子"` — the hardcoded table is not
an involution because the flipped labels are missing from its domain. -/
theorem c1_involution_counterexample :
    (RELATIONSHIPS.map (fun rel => rel.relation)).contains "父子" = true ∧
    get_reverse_relation (get_reverse_relation "父子") = "子父" ∧
    get_reverse_relation (get_reverse_relation "父子") ≠ "父子" := by decide

theorem c1_adjacency_amended_witness :
    (AdjEntry.mk 2 "Bob" "夫妻") ∈ USER_ADJACENCY_LIST 1 ∧
    get_reverse_relation "子父" = "子父" :=
  ⟨(c1_adjacency_amended.1 ⟨1, 2, "夫妻", "Alice", "Bob"⟩ (by decide)).1,
   c1_adjacency_amended.2 "子父" (by decide)⟩

/-- C7: for every pair of store ids, `get_relationship_between_users`
reports no relationship exactly when no declared edge connects them in
either direction, and otherwise returns the label of the first matching
adjacency entry of the first user. -/
theorem c7_relation_between (a b : Nat) (ha : a ∈ user_ids) (hb : b ∈ user_ids) :
    (get_relationship_between_users a b = RelBetween.noRel ↔ edgeConnects a b = false) ∧
    ((USER_ADJACENCY_LIST a).find? (fun r => r.related_user_id == b)).all
        (fun entry =>
          decide (get_relationship_between_users a b = RelBetween.hasRel entry.relation)) =
      true := by
  revert ha hb
  have h : ∀ a ∈ user_ids, ∀ b ∈ user_ids,
      (get_relationship_between_users a b = RelBetween.noRel ↔ edgeConnects a b = false) ∧
      ((USER_ADJACENCY_LIST a).find? (fun r => r.related_user_id == b)).all
          (fun entry =>
            decide (get_relationship_between_users a b = RelBetween.hasRel entry.relation)) =
        true := by decide
  exact fun ha hb => h a ha b hb

theorem c7_relation_between_witness :
    get_relationship_between_users 1 10 = RelBetween.noRel := by
  have h := (c7_relation_between 1 10 (by decide) (by decide)).1
  exact h.mpr (by decide)

/-- C9: `get_spouse` is symmetric over the built dataset, and the
Alice/Bob scenario behaves as specified. -/
theorem c9_spouse_symmetric :
    (∀ x ∈ user_ids, ∀ y ∈ user_ids,
        get_spouse x = SpouseResult.hasSpouse (findUser y) →
        get_spouse y = SpouseResult.hasSpouse (findUser x)) ∧
    get_spouse 1 = SpouseResult.hasSpouse (some ⟨2, "Bob", "bob@example.com", 40, "male"⟩) ∧
    get_spouse 2 = SpouseResult.hasSpouse (some ⟨1, "Alice", "alice@example.com", 39, "female"⟩) ∧
    get_relationship_between_users 1 2 = RelBetween.hasRel "夫妻" := by
  refine ⟨by decide, by decide, by decide, by decide⟩

theorem c9_spouse_symmetric_witness :
    get_spouse 2 = SpouseResult.hasSpouse (findUser 1) :=
  c9_spouse_symmetric.1 1 (by decide) 2 (by decide) (by decide)

/-- C10: over the built dataset, `u` is listed among the children of `p`
exactly when `p` is listed among the parents of `u`, and the fixed
child-label set maps under `get_reverse_relation` exactly onto the fixed
parent-label set. -/
theorem c10_children_parents_dual :
    (∀ p ∈ user_ids, ∀ u ∈ user_ids, (u ∈ children_ids p ↔ p ∈ parent_ids u)) ∧
    (∀ l, l ∈ child_relations.map get_reverse_relation ↔ l ∈ parent_relations) := by
  constructor
  · decide
  · intro l
    have h : child_relations.map get_reverse_relation = ["子父", "女父", "子母", "女母"] := by
      decide
    rw [h]
    simp [parent_relations]
    tauto

theorem c10_children_parents_dual_witness : 3 ∈ children_ids 2 :=
  (c10_children_parents_dual.1 2 (by decide) 3 (by decide)).mpr (by decide)

theorem firstTextContent_skip (pre : List ContentBlock)
    (h : ∀ b ∈ pre, b = ContentBlock.otherContent) (rest : List ContentBlock) :
    firstTextContent (pre ++ rest) = firstTextContent rest := by
  induction pre with
  | nil => rfl
  | cons b bs ih =>
    have hb : b = ContentBlock.otherContent := h b (List.mem_cons_self b bs)
    subst hb
    simpa [firstTextContent] using ih (fun x hx => h x (List.mem_cons_of_mem _ hx))

/-- C8: the tool invocation client parses the first text block as JSON when
possible, wraps the raw text as `{result: text}` when parsing fails, and
converts every exception from the transport or session into an
`{error: message}` value instead of raising. -/
theorem c8_call_mcp_tool :
    (∀ loads msg,
        call_mcp_tool loads (CallOutcome.raised msg) = Json.obj [("error", Json.str msg)]) ∧
    (∀ loads pre s post reprStr j,
        (∀ b ∈ pre, b = ContentBlock.otherContent) → loads s = some j →
        call_mcp_tool loads
            (CallOutcome.returned (pre ++ ContentBlock.textContent s :: post) reprStr) = j) ∧
    (∀ loads pre s post reprStr,
        (∀ b ∈ pre, b = ContentBlock.otherContent) → loads s = none →
        call_mcp_tool loads
            (CallOutcome.returned (pre ++ ContentBlock.textContent s :: post) reprStr) =
          Json.obj [("result", Json.str s)]) := by
  refine ⟨fun loads msg => rfl, ?_, ?_⟩
  · intro loads pre s post reprStr j hpre hs
    have hempty : (pre ++ ContentBlock.textContent s :: post).isEmpty = false := by
      cases pre <;> simp [List.isEmpty]
    have hfirst : firstTextContent (pre ++ ContentBlock.textContent s :: post) = some s := by
      rw [firstTextContent_skip pre hpre]
      rfl
    simp [call_mcp_tool, hempty, hfirst, hs]
  · intro loads pre s post reprStr hpre hs
    have hempty : (pre ++ ContentBlock.textContent s :: post).isEmpty = false := by
      cases pre <;> simp [List.isEmpty]
    have hfirst : firstTextContent (pre ++ ContentBlock.textContent s :: post) = some s := by
      rw [firstTextContent_skip pre hpre]
      rfl
    simp [call_mcp_tool, hempty, hfirst, hs]

theorem c8_call_mcp_tool_witness :
    call_mcp_tool (fun _ => some (Json.num 7))
      (CallOutcome.returned [ContentBlock.otherContent, ContentBlock.textContent "7"] "r") =
    Json.num 7 :=
  c8_call_mcp_tool.2.1 (fun _ => some (Json.num 7)) [ContentBlock.otherContent] "7" [] "r"
    (Json.num 7) (by decide) rfl

/-- Outcome of one `query_users` field of `_convert_arguments` on a dict
argument map: absent or `None` fields and unparseable integer fields
produce nothing, the rest produce one coerced entry. -/
def coerceQueryField (kvs : List (String × Json)) (key : String) : Option (String × Json) :=
  match pyDictFind kvs key with
  | none => none
  | some v =>
    if isNull v then none
    else if int_age_keys.contains key then
      match pyInt v with
      | Except.ok n => some (key, Json.num n)
      | Except.error _ => none
    else some (key, Json.str (pyStr v))

/-- Outcome of one id field of the `user_id`-style branches on a dict
argument map: parse failures keep the raw value. -/
def idField (kvs : List (String × Json)) (key : String) : List (String × Json) :=
  match pyDictFind kvs key with
  | none => []
  | some v =>
    match pyInt v with
    | Except.ok n => [(key, Json.num n)]
    | Except.error _ => [(key, v)]

/-- Outcome of the optional `relation_type` field on a dict argument map. -/
def relTypeField (kvs : List (String × Json)) : List (String × Json) :=
  match pyDictFind kvs "relation_type" with
  | none => []
  | some v => if isNull v then [] else [("relation_type", Json.str (pyStr v))]

theorem convert_query_users_step_obj (kvs : List (String × Json))
    (conv : List (String × Json)) (key : String) :
    convert_query_users_step (Json.obj kvs) conv key =
      Except.ok (conv ++ (coerceQueryField kvs key).toList) := by
  unfold convert_query_users_step coerceQueryField
  cases h : pyDictFind kvs key with
  | none => simp [pyMem, pyGetItem, h]
  | some v =>
    simp only [pyMem, pyGetItem, h, Option.isSome_some]
    cases hn : isNull v with
    | true => simp [hn]
    | false =>
      cases hk : int_age_keys.contains key with
      | true =>
        cases hv : pyInt v with
        | ok n => simp [hn, hk, hv]
        | error e => simp [hn, hk, hv]
      | false => simp [hn, hk]

theorem convertQueryUsersAux_obj (kvs : List (String × Json)) (keys : List String)
    (conv : List (String × Json)) :
    convertQueryUsersAux (Json.obj kvs) keys conv =
      Except.ok (conv ++ keys.filterMap (coerceQueryField kvs)) := by
  induction keys generalizing conv with
  | nil => simp [convertQueryUsersAux]
  | cons k rest ih =>
    simp only [convertQueryUsersAux, convert_query_users_step_obj, ih, List.filterMap_cons]
    cases h : coerceQueryField kvs k <;> simp [h]

theorem convertQueryUsers_obj (kvs : List (String × Json)) :
    convertQueryUsers (Json.obj kvs) =
      Except.ok (query_users_keys.filterMap (coerceQueryField kvs)) := by
  simpa [convertQueryUsers] using convertQueryUsersAux_obj kvs query_users_keys []

theorem convert_id_step_obj (kvs : List (String × Json)) (conv : List (String × Json))
    (key : String) :
    convert_id_step (Json.obj kvs) conv key = Except.ok (conv ++ idField kvs key) := by
  unfold convert_id_step idField
  cases h : pyDictFind kvs key with
  | none => simp [pyMem, pyGetItem, h]
  | some v =>
    simp only [pyMem, pyGetItem, h, Option.isSome_some]
    cases hv : pyInt v with
    | ok n => simp [hv]
    | error e => simp [hv]

theorem convertUserIdTool_obj (kvs : List (String × Json)) :
    convertUserIdTool (Json.obj kvs) =
      Except.ok (idField kvs "user_id" ++ relTypeField kvs) := by
  simp only [convertUserIdTool, convert_id_step_obj, relTypeField]
  cases h : pyDictFind kvs "relation_type" with
  | none => simp [pyMem, h]
  | some v =>
    simp only [pyMem, pyGetItem, h, Option.isSome_some]
    cases hn : isNull v with
    | true => simp [hn]
    | false => simp [hn]

theorem convertRelBetween_obj (kvs : List (String × Json)) :
    convertRelBetween (Json.obj kvs) =
      Except.ok (idField kvs "user1_id" ++ idField kvs "user2_id") := by
  simp [convertRelBetween, convert_id_step_obj]

theorem coerceQueryField_fst (kvs : List (String × Json)) (key : String) (p : String × Json)
    (h : coerceQueryField kvs key = some p) : p.1 = key := by
  unfold coerceQueryField at h
  repeat' split at h
  all_goals (first | (exact (Option.some.inj h) ▸ rfl) | simp_all)

theorem idField_fst (kvs : List (String × Json)) (key : String) (p : String × Json)
    (h : p ∈ idField kvs key) : p.1 = key := by
  unfold idField at h
  repeat' split at h
  all_goals simp_all

theorem relTypeField_fst (kvs : List (String × Json)) (p : String × Json)
    (h : p ∈ relTypeField kvs) : p.1 = "relation_type" := by
  unfold relTypeField at h
  repeat' split at h
  all_goals simp_all

/-- Whether a modelled Python computation completed without raising. -/
def exceptIsOk {α : Type} : Except PyErr α → Bool
  | Except.ok _ => true
  | Except.error _ => false

/-- C2 (amended): for the `query_users` tool an integer-typed field whose
value fails `int(...)` is dropped from the coerced map while the other
fields go through the per-field coercion rule unchanged; but for the
`user_id`-style tools a failed parse stores the raw value instead of
dropping the field, and (see `c2_coercion_counterexample`) the raw value
is returned to the caller. -/
theorem c2_coercion_amended :
    (∀ (kvs : List (String × Json)) (key : String) (v : Json),
        int_age_keys.contains key = true → pyDictFind kvs key = some v →
        isNull v = false → exceptIsOk (pyInt v) = false →
        convertQueryUsers (Json.obj kvs) =
            Except.ok (query_users_keys.filterMap (coerceQueryField kvs)) ∧
          coerceQueryField kvs key = none) ∧
    (∀ (kvs : List (String × Json)) (v : Json),
        pyDictFind kvs "user_id" = some v → exceptIsOk (pyInt v) = false →
        convertUserIdTool (Json.obj kvs) =
            Except.ok (idField kvs "user_id" ++ relTypeField kvs) ∧
          idField kvs "user_id" = [("user_id", v)]) := by
  constructor
  · intro kvs key v hkey hfind hnull hfail
    refine ⟨convertQueryUsers_obj kvs, ?_⟩
    unfold coerceQueryField
    rw [hfind]
    cases hv : pyInt v with
    | ok n => rw [hv] at hfail; exact absurd hfail (by simp [exceptIsOk])
    | error e =>
        have hmem : key ∈ int_age_keys := by simpa using hkey
        simp [hnull, hmem, hv]
  · intro kvs v hfind hfail
    refine ⟨convertUserIdTool_obj kvs, ?_⟩
    unfold idField
    rw [hfind]
    cases hv : pyInt v with
    | ok n => rw [hv] at hfail; exact absurd hfail (by simp [exceptIsOk])
    | error e => simp [hv]

/-- C2 (counterexample): for `get_user_by_id` the unparseable integer field
`user_id = "abc"` is passed through with its raw value instead of being
dropped, refuting the claim that no unparseable integer field is ever
passed through. -/
theorem c2_coercion_counterexample :
    convert_arguments (Json.str "get_user_by_id") (Json.obj [("user_id", Json.str "abc")]) =
      Except.ok (Json.obj [("user_id", Json.str "abc")]) := rfl

theorem c2_coercion_amended_witness :
    convertQueryUsers (Json.obj [("min_age", Json.str "abc")]) =
        Except.ok
          (query_users_keys.filterMap (coerceQueryField [("min_age", Json.str "abc")])) ∧
      coerceQueryField [("min_age", Json.str "abc")] "min_age" = none :=
  c2_coercion_amended.1 [("min_age", Json.str "abc")] "min_age" (Json.str "abc") rfl rfl rfl rfl

/-- The keys of a tool schema as consulted by `_convert_arguments`
(the key sets appearing in src/client.py lines 128-164). -/
def declared_keys (tool : String) : List String :=
  if tool == "query_users" then query_users_keys
  else if user_id_tools.any (fun s => tool == s) then ["user_id", "relation_type"]
  else if tool == "get_relationship_between_users" then ["user1_id", "user2_id"]
  else []

/-- The tool-specific field loop of `_convert_arguments` before the final
`return converted if converted else arguments`. -/
def branch_convert (tool : String) (arguments : Json) :
    Except PyErr (List (String × Json)) :=
  if tool == "query_users" then convertQueryUsers arguments
  else if user_id_tools.any (fun s => tool == s) then convertUserIdTool arguments
  else if tool == "get_relationship_between_users" then convertRelBetween arguments
  else Except.ok []

theorem convert_arguments_str (tool : String) (arguments : Json) :
    convert_arguments (Json.str tool) arguments =
      match branch_convert tool arguments with
      | Except.error e => Except.error e
      | Except.ok conv =>
        if conv.isEmpty then Except.ok arguments else Except.ok (Json.obj conv) := rfl

/-- C3 (amended): whenever the tool-specific field loop produces a
non-empty coerced map, every key of the returned map is a declared key of
that tool (unknown keys are dropped); but when the loop produces an empty
map, `_convert_arguments` returns the raw argument map unchanged, unknown
keys included (see `c3_unknown_keys_counterexample`). -/
theorem c3_unknown_keys_amended (tool : String) (kvs : List (String × Json))
    (conv : List (String × Json))
    (h : branch_convert tool (Json.obj kvs) = Except.ok conv) :
    (∀ p ∈ conv, p.1 ∈ declared_keys tool) ∧
    (conv.isEmpty = false →
        convert_arguments (Json.str tool) (Json.obj kvs) = Except.ok (Json.obj conv)) ∧
    (conv.isEmpty = true →
        convert_arguments (Json.str tool) (Json.obj kvs) = Except.ok (Json.obj kvs)) := by
  refine ⟨?_, ?_, ?_⟩
  · intro p hp
    unfold branch_convert at h
    unfold declared_keys
    cases h1 : (tool == "query_users") with
    | true =>
      rw [h1] at h
      simp only [if_true] at h
      rw [convertQueryUsers_obj kvs] at h
      cases h
      simp only [h1, if_true]
      rcases List.mem_filterMap.mp hp with ⟨k, hk, hck⟩
      exact (coerceQueryField_fst kvs k p hck) ▸ hk
    | false =>
      rw [h1] at h
      simp only [Bool.false_eq_true, if_false] at h
      cases h2 : (user_id_tools.any (fun s => tool == s)) with
      | true =>
        rw [h2] at h
        simp only [if_true] at h
        rw [convertUserIdTool_obj kvs] at h
        cases h
        simp only [h1, h2, Bool.false_eq_true, if_false, if_true]
        rcases List.mem_append.mp hp with hleft | hright
        · rw [idField_fst kvs "user_id" p hleft]
          simp
        · rw [relTypeField_fst kvs p hright]
          simp
      | false =>
        rw [h2] at h
        simp only [Bool.false_eq_true, if_false] at h
        cases h3 : (tool == "get_relationship_between_users") with
        | true =>
          rw [h3] at h
          simp only [if_true] at h
          rw [convertRelBetween_obj kvs] at h
          cases h
          simp only [h1, h2, h3, Bool.false_eq_true, if_false, if_true]
          rcases List.mem_append.mp hp with hleft | hright
          · rw [idField_fst kvs "user1_id" p hleft]
            simp
          · rw [idField_fst kvs "user2_id" p hright]
            simp
        | false =>
          rw [h3] at h
          simp only [Bool.false_eq_true, if_false] at h
          cases h
          simp at hp
  · intro hne
    rw [convert_arguments_str, h]
    simp [hne]
  · intro he
    rw [convert_arguments_str, h]
    simp [List.isEmpty_iff.mp he]

/-- C3 (counterexample): for `query_users` with the single unknown key
`foo`, no declared field coerces, so the raw map is returned and the
unknown key survives, refuting the claim that unknown keys are absent
even when no declared parameter is present. -/
theorem c3_unknown_keys_counterexample :
    convert_arguments (Json.str "query_users") (Json.obj [("foo", Json.num 1)]) =
      Except.ok (Json.obj [("foo", Json.num 1)]) := rfl

theorem c3_unknown_keys_amended_witness :
    convert_arguments (Json.str "query_users") (Json.obj [("name", Json.str "Al")]) =
      Except.ok (Json.obj [("name", Json.str "Al")]) :=
  (c3_unknown_keys_amended "query_users" [("name", Json.str "Al")]
      [("name", Json.str "Al")] rfl).2.1 rfl

/-- C4 (amended): a response is treated as a tool invocation exactly when
it parses as a JSON object carrying both a `tool` and an `arguments` key;
a response that fails JSON parsing (including on the first round, where
it is returned verbatim with an empty history) or parses to an object
missing one of the keys becomes the final answer; but a response parsing
to a non-container JSON value makes the membership probe raise a
`TypeError` that only the outer exception handler catches (see
`c4_dispatch_counterexample`), so not every non-tool response is returned
verbatim. -/
theorem c4_dispatch_amended :
    (∀ (kvs : List (String × Json)) (t a : Json),
        pyDictFind kvs "tool" = some t → pyDictFind kvs "arguments" = some a →
        decisionStep (some (Json.obj kvs)) = StepKind.toolCall t a) ∧
    (∀ kvs : List (String × Json),
        pyDictFind kvs "tool" = none ∨ pyDictFind kvs "arguments" = none →
        decisionStep (some (Json.obj kvs)) = StepKind.finalAnswer) ∧
    decisionStep none = StepKind.finalAnswer ∧
    (∀ n : Int, decisionStep (some (Json.num n)) = StepKind.pyError PyErr.typeError) ∧
    (∀ dec execTool loads,
        loads (dec []) = none →
        queryRun dec execTool loads =
          { answer := dec [], decisionCalls := 1, history := [] }) := by
  refine ⟨?_, ?_, rfl, fun n => rfl, ?_⟩
  · intro kvs t a ht ha
    simp [decisionStep, pyMem, pyGetItem, ht, ha]
  · intro kvs h
    rcases h with ht | ha
    · simp [decisionStep, pyMem, ht]
    · cases ht : pyDictFind kvs "tool" with
      | none => simp [decisionStep, pyMem, ht]
      | some t => simp [decisionStep, pyMem, ht, ha]
  · intro dec execTool loads h
    show queryAux dec execTool loads (9 + 1) [] 0 = _
    rw [queryAux]
    simp [h, decisionStep]

/-- C4 (counterexample): the response text `123` parses as JSON but is
neither treated as a tool call nor returned verbatim — the `TypeError`
raised by the membership probe turns it into an error answer. -/
theorem c4_dispatch_counterexample :
    (queryRun (fun _ => "123") (fun _ _ => Json.null) (fun _ => some (Json.num 123))).answer ≠
      "123" := by decide

theorem c4_dispatch_amended_witness :
    decisionStep
        (some (Json.obj [("tool", Json.str "query_users"), ("arguments", Json.obj [])])) =
      StepKind.toolCall (Json.str "query_users") (Json.obj []) :=
  c4_dispatch_amended.1 [("tool", Json.str "query_users"), ("arguments", Json.obj [])]
    (Json.str "query_users") (Json.obj []) rfl rfl

/-- Whether one classified decision is a tool call whose argument coercion
succeeds (the only way a loop round continues). -/
def stepToolOk (parsed : Option Json) : Bool :=
  match decisionStep parsed with
  | StepKind.toolCall t a => exceptIsOk (convert_arguments t a)
  | _ => false

theorem queryAux_calls_le (dec : List ToolCallRecord → String)
    (execTool : Json → Json → Json) (loads : String → Option Json) :
    ∀ (fuel : Nat) (history : List ToolCallRecord) (calls : Nat),
      (queryAux dec execTool loads fuel history calls).decisionCalls ≤ calls + fuel := by
  intro fuel
  induction fuel with
  | zero => intro history calls; simp [queryAux]
  | succ n ih =>
    intro history calls
    rw [queryAux]
    cases hs : decisionStep (loads (dec history)) with
    | pyError e => simp
    | finalAnswer => simp
    | toolCall t a =>
      cases hc : convert_arguments t a with
      | error e => simp [hc]
      | ok args =>
        have h := ih (history ++ [⟨t, args, execTool t args⟩]) (calls + 1)
        simp only [hc]
        omega

theorem queryAux_exhaust (dec : List ToolCallRecord → String)
    (execTool : Json → Json → Json) (loads : String → Option Json)
    (hall : ∀ h, stepToolOk (loads (dec h)) = true) :
    ∀ (fuel : Nat) (history : List ToolCallRecord) (calls : Nat),
      (queryAux dec execTool loads fuel history calls).history.length =
          history.length + fuel ∧
        (queryAux dec execTool loads fuel history calls).answer =
          (if history.length + fuel = 0 then fallbackAnswer
           else degradedMessage (history.length + fuel)) := by
  intro fuel
  induction fuel with
  | zero =>
    intro history calls
    cases history with
    | nil => simp [queryAux]
    | cons r rest => simp [queryAux, List.isEmpty]
  | succ n ih =>
    intro history calls
    have hstep := hall history
    rw [queryAux]
    unfold stepToolOk at hstep
    cases hs : decisionStep (loads (dec history)) with
    | pyError e =>
      rw [hs] at hstep
      exact absurd hstep (by simp)
    | finalAnswer =>
      rw [hs] at hstep
      exact absurd hstep (by simp)
    | toolCall t a =>
      rw [hs] at hstep
      have hstep2 : exceptIsOk (convert_arguments t a) = true := hstep
      cases hc : convert_arguments t a with
      | error e =>
        rw [hc] at hstep2
        exact absurd hstep2 (by simp [exceptIsOk])
      | ok args =>
        have h := ih (history ++ [⟨t, args, execTool t args⟩]) (calls + 1)
        have hlen : (history ++ [(⟨t, args, execTool t args⟩ : ToolCallRecord)]).length + n =
            history.length + (n + 1) := by
          simp
          omega
        rw [hlen] at h
        simpa [hc] using h

/-- C5: for every Decision Engine behaviour the orchestration loop makes
at most `max_rounds + 1` (indeed at most `max_rounds = 10`) LLM calls, and
when every round yields an executable tool invocation the loop exhausts
its budget and answers with the degraded message naming the number of
tool calls recorded in the history. -/
theorem c5_round_bound :
    (∀ dec execTool loads,
        (queryRun dec execTool loads).decisionCalls ≤ max_iterations + 1) ∧
    (∀ dec execTool loads,
        (∀ h, stepToolOk (loads (dec h)) = true) →
        (queryRun dec execTool loads).answer =
            degradedMessage (queryRun dec execTool loads).history.length ∧
          (queryRun dec execTool loads).history.length = max_iterations) := by
  constructor
  · intro dec execTool loads
    have h := queryAux_calls_le dec execTool loads max_iterations [] 0
    unfold queryRun
    omega
  · intro dec execTool loads hall
    rcases queryAux_exhaust dec execTool loads hall max_iterations [] 0 with ⟨h1, h2⟩
    have h1q : (queryRun dec execTool loads).history.length = max_iterations := by
      simpa [queryRun] using h1
    refine ⟨?_, h1q⟩
    have h2q : (queryRun dec execTool loads).answer = degradedMessage max_iterations := by
      simpa [queryRun, max_iterations] using h2
    rw [h2q, h1q]

def roundsDec : List ToolCallRecord → String := fun _ => "call"

def roundsLoads : String → Option Json :=
  fun _ =>
    some (Json.obj [("tool", Json.str "query_users"),
                    ("arguments", Json.obj [("min_age", Json.num 1)])])

def roundsExec : Json → Json → Json := fun _ _ => Json.null

theorem c5_round_bound_witness :
    (queryRun roundsDec roundsExec roundsLoads).answer = degradedMessage 10 ∧
    (queryRun roundsDec roundsExec roundsLoads).history.length = 10 := by
  have h := c5_round_bound.2 roundsDec roundsExec roundsLoads (fun _ => rfl)
  refine ⟨?_, h.2⟩
  rw [h.1, h.2]
  rfl

/-- The name / email predicate of `query_users` as a standalone check:
falsy (omitted or empty) patterns impose no constraint, otherwise a
case-insensitive substring match. -/
def strFieldCheck (q : Option String) (field : String) : Bool :=
  match q with
  | none => true
  | some n => (n == "") || pyIn n.toLower field.toLower

/-- The inclusive lower age bound (`min_age`) as a standalone check. -/
def lowBoundCheck (q : Option Int) (age : Int) : Bool :=
  match q with
  | none => true
  | some m => decide (m ≤ age)

/-- The inclusive upper age bound (`max_age`) as a standalone check. -/
def highBoundCheck (q : Option Int) (age : Int) : Bool :=
  match q with
  | none => true
  | some m => decide (age ≤ m)

/-- The exclusive lower age bound (`age_greater_than`) as a standalone check. -/
def strictLowCheck (q : Option Int) (age : Int) : Bool :=
  match q with
  | none => true
  | some g => decide (g < age)

/-- The exclusive upper age bound (`age_less_than`) as a standalone check. -/
def strictHighCheck (q : Option Int) (age : Int) : Bool :=
  match q with
  | none => true
  | some l => decide (age < l)

theorem matchChain (a b c d e f : Bool) :
    (let m0 := true
     let m1 := if a then false else m0
     let m2 := if b then false else m1
     let m3 := if c then false else m2
     let m4 := if d then false else m3
     let m5 := if e then false else m4
     let m6 := if f then false else m5
     m6) = (!a && !b && !c && !d && !e && !f) := by
  cases a <;> cases b <;> cases c <;> cases d <;> cases e <;> cases f <;> rfl

theorem strFieldCheck_not (q : Option String) (field : String) :
    (!(optStrTruthy q && !(pyIn (q.getD "").toLower field.toLower))) = strFieldCheck q field := by
  cases q with
  | none => rfl
  | some s => simp [optStrTruthy, strFieldCheck, Bool.not_and, Bool.not_not, bne]

theorem lowBoundCheck_not (q : Option Int) (age : Int) :
    (!(q.isSome && decide (age < q.getD 0))) = lowBoundCheck q age := by
  cases q with
  | none => rfl
  | some m =>
    show (!(true && decide (age < m))) = decide (m ≤ age)
    rw [Bool.true_and, ← decide_not]
    simp [not_lt]

theorem highBoundCheck_not (q : Option Int) (age : Int) :
    (!(q.isSome && decide (q.getD 0 < age))) = highBoundCheck q age := by
  cases q with
  | none => rfl
  | some m =>
    show (!(true && decide (m < age))) = decide (age ≤ m)
    rw [Bool.true_and, ← decide_not]
    simp [not_lt]

theorem strictLowCheck_not (q : Option Int) (age : Int) :
    (!(q.isSome && decide (age ≤ q.getD 0))) = strictLowCheck q age := by
  cases q with
  | none => rfl
  | some g =>
    show (!(true && decide (age ≤ g))) = decide (g < age)
    rw [Bool.true_and, ← decide_not]
    simp [not_le]

theorem strictHighCheck_not (q : Option Int) (age : Int) :
    (!(q.isSome && decide (q.getD 0 ≤ age))) = strictHighCheck q age := by
  cases q with
  | none => rfl
  | some l =>
    show (!(true && decide (l ≤ age))) = decide (age < l)
    rw [Bool.true_and, ← decide_not]
    simp [not_le]

/-- A store of four entities aged 19, 25, 30, 35 (the first filter
scenario of the specification). -/
def age4Store : List User :=
  [⟨101, "P19", "p19@example.com", 19, "female"⟩,
   ⟨102, "P25", "p25@example.com", 25, "female"⟩,
   ⟨103, "P30", "p30@example.com", 30, "female"⟩,
   ⟨104, "P35", "p35@example.com", 35, "female"⟩]

/-- A store of three entities aged 25, 30, 35 (the second filter
scenario of the specification). -/
def age3Store : List User :=
  [⟨201, "Q25", "q25@example.com", 25, "male"⟩,
   ⟨202, "Q30", "q30@example.com", 30, "male"⟩,
   ⟨203, "Q35", "q35@example.com", 35, "male"⟩]

/-- C6: `query_users` ANDs all supplied predicates, omitted predicates
impose no constraint, inclusive and exclusive bounds on the same side are
honored simultaneously, and the two specification scenarios return
exactly the specified entities. -/
theorem c6_filter_semantics :
    (∀ p u, userMatches p u =
        (strFieldCheck p.name u.name && lowBoundCheck p.min_age u.age &&
         highBoundCheck p.max_age u.age && strictLowCheck p.age_greater_than u.age &&
         strictHighCheck p.age_less_than u.age && strFieldCheck p.email_contains u.email)) ∧
    (∀ u, userMatches ⟨none, none, none, none, none, none⟩ u = true) ∧
    (query_users age4Store ⟨none, some 25, some 30, none, none, none⟩).users =
      [⟨102, "P25", "p25@example.com", 25⟩, ⟨103, "P30", "p30@example.com", 30⟩] ∧
    (query_users age3Store ⟨none, none, none, some 25, some 35, none⟩).users =
      [⟨202, "Q30", "q30@example.com", 30⟩] := by
  refine ⟨?_, fun u => rfl, by decide, by decide⟩
  intro p u
  rw [← strFieldCheck_not p.name u.name, ← lowBoundCheck_not p.min_age u.age,
      ← highBoundCheck_not p.max_age u.age, ← strictLowCheck_not p.age_greater_than u.age,
      ← strictHighCheck_not p.age_less_than u.age,
      ← strFieldCheck_not p.email_contains u.email]
  exact matchChain
    (optStrTruthy p.name && !(pyIn (p.name.getD "").toLower u.name.toLower))
    (p.min_age.isSome && decide (u.age < p.min_age.getD 0))
    (p.max_age.isSome && decide (p.max_age.getD 0 < u.age))
    (p.age_greater_than.isSome && decide (u.age ≤ p.age_greater_than.getD 0))
    (p.age_less_than.isSome && decide (p.age_less_than.getD 0 ≤ u.age))
    (optStrTruthy p.email_contains && !(pyIn (p.email_contains.getD "").toLower u.email.toLower))
